import Mathlib

/-!
Verification development for an IoT predictive-maintenance service.

The system is a stateless batch transform: a `Scorer` (class `AnomalyDetector`
in `src/detector.py`) computes, per metric column (temperature, vibration), a
Modified Z-Score for every reading of a batch and flags readings whose score on
either metric strictly exceeds a fixed positive threshold.  A request-handling
collaborator (`lambda_handler` in `src/lambda_function.py`) validates decoded
JSON payloads before invoking the detector.

The embedding below models the numeric code over exact arithmetic: sensor
values, medians and thresholds are rationals, and the real numbers enter only
through the square root inside the population standard deviation (`np.std`).
Each definition mirrors one function of the source.
-/

namespace IoTPM

/-! ### Numeric primitives (exact-arithmetic counterparts of the numpy calls) -/

/-- Sorted copy of a list of rationals.  `np.median` sorts its input; for a
linear order the sorted copy is unique, so insertion sort stands in for
numpy's introsort. -/
def npSort (l : List ℚ) : List ℚ :=
  l.insertionSort (· ≤ ·)

/-- Median as `np.median` computes it: the middle element of the sorted data
for odd length, the average of the two middle elements for even length.
(The empty case never occurs in the detector: `detect` returns early on an
empty batch.) -/
def np_median (l : List ℚ) : ℚ :=
  let s := npSort l
  if l.length % 2 = 1 then s.getD (l.length / 2) 0
  else (s.getD (l.length / 2 - 1) 0 + s.getD (l.length / 2) 0) / 2

/-- Arithmetic mean, as `np.mean`: sum divided by length. -/
def np_mean (l : List ℚ) : ℚ :=
  l.sum / l.length

/-- Population variance, dividing by `n` (numpy default `ddof=0`), the radicand
of `np.std`. -/
def np_var (l : List ℚ) : ℚ :=
  np_mean (l.map (fun x => (x - np_mean l) ^ 2))

/-- Population standard deviation, as `np.std`: square root of the mean of the
squared deviations from the mean. -/
noncomputable def np_std (l : List ℚ) : ℝ :=
  Real.sqrt ((np_var l : ℚ) : ℝ)

/-! ### The detector (`src/detector.py`) -/

/-- One sensor reading: the three fields the detector reads.  Sensor values are
modelled as exact rationals. -/
structure Reading where
  sensor_id : String
  temperature : ℚ
  vibration : ℚ
deriving DecidableEq, Repr

/-- Per-metric exposed scores, mirroring the `anomaly_scores` dict of a result. -/
structure MetricScores where
  temperature : ℝ
  vibration : ℝ

/-- One result of `detect`, mirroring the result dict built in the loop body. -/
structure ScoreResult where
  sensor_id : String
  temperature : ℚ
  vibration : ℚ
  is_anomaly : Bool
  anomaly_scores : MetricScores
  anomalous_metrics : List String

/-- Configuration of class `AnomalyDetector`: the only state is the threshold,
fixed at construction. -/
structure AnomalyDetector where
  threshold : ℚ

/-- Class constant `CONSISTENCY_CONSTANT = 0.6745`. -/
def CONSISTENCY_CONSTANT : ℚ :=
  6745 / 10000

/-- Constructor `AnomalyDetector.__init__`: raises `ValueError` on a
non-positive threshold, otherwise stores the threshold unchanged.  The raise
is modelled as `Except.error`. -/
def AnomalyDetector.init (threshold : ℚ) : Except String AnomalyDetector :=
  if threshold ≤ 0 then Except.error "Threshold must be a positive number"
  else Except.ok ⟨threshold⟩

open Classical in
/-- Method `_modified_z_scores`: per-element Modified Z-Scores of a column.
Primary formula `|0.6745 * (x - median) / mad|` when the median absolute
deviation is non-zero; otherwise the mean/standard-deviation fallback, and
all-zero scores when the standard deviation is zero too. -/
noncomputable def modified_z_scores (data : List ℚ) : List ℝ :=
  let median := np_median data
  let mad := np_median (data.map (fun x => |x - median|))
  if mad = 0 then
    let std := np_std data
    if std = 0 then data.map (fun _ => (0 : ℝ))
    else data.map (fun x : ℚ => |(x : ℝ) - (np_mean data : ℝ)| / std)
  else
    data.map (fun x => ((|CONSISTENCY_CONSTANT * (x - median) / mad| : ℚ) : ℝ))

open Classical in
/-- Rounding of one value by Python built-in `round` (round-half-to-even):
nearest integer, ties going to the even neighbour. -/
noncomputable def pyRound (x : ℝ) : ℤ :=
  if Int.fract x = 1 / 2 then 2 * round (x / 2) else round x

/-- Rounding to 4 decimal places, `round(x, 4)` in the source. -/
noncomputable def round4 (x : ℝ) : ℝ :=
  (pyRound (x * 10000) : ℤ) / 10000

/-- Computable restriction of `pyRound` to rational inputs, for evaluating
concrete instances. -/
def pyRoundQ (x : ℚ) : ℤ :=
  if Int.fract x = 1 / 2 then 2 * round (x / 2) else round x

open Classical in
/-- Body of the result loop of `detect` for one reading and its two unrounded
column scores: builds `anomalous_metrics` by appending `"temperature"` then
`"vibration"` when the corresponding score strictly exceeds the threshold,
sets `is_anomaly` from its length, and exposes the scores rounded to 4
decimal places. -/
noncomputable def scoreReading (threshold : ℚ) (reading : Reading)
    (temp_score vib_score : ℝ) : ScoreResult :=
  let anomalous_metrics :=
    (if temp_score > (threshold : ℝ) then ["temperature"] else []) ++
    (if vib_score > (threshold : ℝ) then ["vibration"] else [])
  ⟨reading.sensor_id, reading.temperature, reading.vibration,
    decide (0 < anomalous_metrics.length),
    ⟨round4 temp_score, round4 vib_score⟩,
    anomalous_metrics⟩

/-- Method `detect`: empty batch short-circuits to the empty result list;
otherwise the two metric columns are extracted, scored independently by
`modified_z_scores`, and the loop over `enumerate(readings)` (here a
`zipWith` over the readings and the paired column scores, which have the same
length as the batch) assembles one result per reading, in order. -/
noncomputable def AnomalyDetector.detect (d : AnomalyDetector)
    (readings : List Reading) : List ScoreResult :=
  if readings.isEmpty then []
  else
    let temp_scores := modified_z_scores (readings.map Reading.temperature)
    let vib_scores := modified_z_scores (readings.map Reading.vibration)
    List.zipWith (fun r s => scoreReading d.threshold r s.1 s.2)
      readings (temp_scores.zip vib_scores)

/-- Number of flagged results, as the handler counts them:
`sum(1 for r in results if r["is_anomaly"])`. -/
def anomalies_detected (results : List ScoreResult) : ℕ :=
  results.countP (fun r => r.is_anomaly)

/-! ### Guarded variant of the scorer, for the no-exception claim

The numeric hazard in `_modified_z_scores` is division: dividing by a zero
`mad` or a zero `std` would produce non-finite scores (numpy yields `inf` or
`nan` rather than raising).  `guardedDiv` keeps that case explicit as `none`;
`modified_z_scores_checked` is `_modified_z_scores` with every division so
guarded, and claim C3 proves it always returns `some` of the unguarded
scores. -/

open Classical in
/-- Real division with an explicit zero-denominator failure. -/
noncomputable def guardedDiv (a b : ℝ) : Option ℝ :=
  if b = 0 then none else some (a / b)

/-- Rational division with an explicit zero-denominator failure. -/
def guardedDivQ (a b : ℚ) : Option ℚ :=
  if b = 0 then none else some (a / b)

/-- Collecting the results of elementwise fallible operations over a column:
`none` as soon as any element fails. -/
def seqOption {α : Type} : List (Option α) → Option (List α)
  | [] => some []
  | none :: _ => none
  | some a :: rest => (seqOption rest).map (fun l => a :: l)

open Classical in
/-- Method `_modified_z_scores` with each of its two divisions guarded. -/
noncomputable def modified_z_scores_checked (data : List ℚ) : Option (List ℝ) :=
  let median := np_median data
  let mad := np_median (data.map (fun x => |x - median|))
  if mad = 0 then
    let std := np_std data
    if std = 0 then some (data.map (fun _ => (0 : ℝ)))
    else seqOption (data.map (fun x : ℚ =>
      guardedDiv |(x : ℝ) - (np_mean data : ℝ)| std))
  else
    seqOption (data.map (fun x =>
      (guardedDivQ (CONSISTENCY_CONSTANT * (x - median)) mad).map
        (fun q => ((|q| : ℚ) : ℝ))))

/-- Method `detect` on top of the guarded scorer: `none` would mean some score
of some column is not a finite number. -/
noncomputable def detect_checked (d : AnomalyDetector)
    (readings : List Reading) : Option (List ScoreResult) :=
  if readings.isEmpty then some []
  else
    match modified_z_scores_checked (readings.map Reading.temperature),
          modified_z_scores_checked (readings.map Reading.vibration) with
    | some ts, some vs =>
      some (List.zipWith (fun r s => scoreReading d.threshold r s.1 s.2)
        readings (ts.zip vs))
    | _, _ => none

/-! ### Spec-side scoring chain (refinement side of claim C1)

These definitions follow the words of the specification, independently of the
shape of the source: the median is taken over `mergeSort` rather than the
insertion sort used by the embedding of `np.median`, and the branch chain is
written per element in the order the spec states it. -/

/-- Modelled from the spec: the standard median, the average of the two middle
elements of the sorted data for even length. -/
def specMedian (l : List ℚ) : ℚ :=
  let s := l.mergeSort (fun a b => decide (a ≤ b))
  if l.length % 2 = 1 then s.getD (l.length / 2) 0
  else (s.getD (l.length / 2 - 1) 0 + s.getD (l.length / 2) 0) / 2

/-- Modelled from the spec: the per-element Modified Z-Score chain of claim
C1: `med` the standard median, `mad` the median of absolute deviations, the
primary formula when `mad` is non-zero, the population-standard-deviation
fallback when it is zero, and zero when the standard deviation vanishes too. -/
noncomputable def specScore (values : List ℚ) (i : ℕ) : ℝ :=
  let med := specMedian values
  let mad := specMedian (values.map (fun v => |v - med|))
  if mad ≠ 0 then
    ((|(0.6745 : ℚ) * (values.getD i 0 - med) / mad| : ℚ) : ℝ)
  else if np_std values = 0 then 0
  else |(values.getD i 0 : ℝ) - (np_mean values : ℝ)| / np_std values

/-! ### JSON values and the request handler (`src/lambda_function.py`) -/

/-- Decoded JSON value, the shapes `json.loads` produces. -/
inductive Json where
  | null : Json
  | bool : Bool → Json
  | num : ℚ → Json
  | str : String → Json
  | arr : List Json → Json
  | obj : List (String × Json) → Json

/-- Dictionary lookup `d.get(k)`: the first binding of the key in an object,
`none` for an absent key.  Python raises `AttributeError` on non-mappings;
callers of this model handle that shape separately. -/
def Json.get (j : Json) (k : String) : Option Json :=
  match j with
  | Json.obj fields => (fields.find? (fun p => p.1 == k)).map (fun p => p.2)
  | _ => none

/-- Whether a decoded value is a mapping (`isinstance(r, dict)` territory:
only mappings answer `r.keys()`). -/
def Json.isObj : Json → Bool
  | Json.obj _ => true
  | _ => false

/-- Whether a decoded value is a list (`isinstance(readings, list)`). -/
def Json.isArr : Json → Bool
  | Json.arr _ => true
  | _ => false

/-- The required per-reading keys, in the alphabetical order that
`sorted(...)` produces on any subset. -/
def required_keys : List String :=
  ["sensor_id", "temperature", "vibration"]

/-- Computation `required_keys - r.keys()` for a mapping entry, listed in
sorted order. -/
def entryMissing (r : Json) : List String :=
  required_keys.filter (fun k => (r.get k).isNone)

/-- Outcome of the validation loop of `lambda_handler` over the readings
list: every entry is a mapping with all required keys; or the first offending
entry is a mapping with missing keys (client error); or the first offending
entry is not a mapping, so `r.keys()` raises and the catch-all turns it into
a server error. -/
inductive Validation where
  | ok : Validation
  | missingKeys : ℕ → List String → Validation
  | typeError : Validation

/-- Loop `for idx, r in enumerate(readings)` checking
`required_keys - r.keys()` entry by entry, from a given starting index. -/
def checkReadings : ℕ → List Json → Validation
  | _, [] => Validation.ok
  | idx, r :: rest =>
    match r with
    | Json.obj _ =>
      let missing := entryMissing r
      if missing.isEmpty then checkReadings (idx + 1) rest
      else Validation.missingKeys idx missing
    | _ => Validation.typeError

/-- Error message of the per-reading validation failure.  The Python f-string
renders the sorted missing keys as a list literal; the model renders them
comma-separated. -/
def missingKeysMsg (idx : ℕ) (missing : List String) : String :=
  "Reading at index " ++ toString idx ++ " is missing keys: " ++
    String.intercalate ", " missing

/-- Numeric coercion performed by `np.array(..., dtype=float)` on a field
value: numbers pass through and booleans coerce to 0/1; other shapes raise.
(Strings that `float()` would parse are not modelled; no claim exercises
them.) -/
def Json.asNum : Json → Option ℚ
  | Json.num q => some q
  | Json.bool b => some (if b then 1 else 0)
  | _ => none

/-- Rendering of a sensor id.  Python echoes the value verbatim whatever its
type; the model renders string ids, the only shape the claims exercise. -/
def Json.sensorName : Json → String
  | Json.str s => s
  | _ => ""

/-- Building one detector input from a validated entry; `none` models the
exception `np.array` raises on a non-coercible field value. -/
def toReading (r : Json) : Option Reading :=
  match r.get "sensor_id", (r.get "temperature").bind Json.asNum,
        (r.get "vibration").bind Json.asNum with
  | some sid, some t, some v => some ⟨Json.sensorName sid, t, v⟩
  | _, _, _ => none

/-- Response of `_build_response` together with a flag recording whether the
request reached the call of the core `detect` (the flag is bookkeeping of the
model, not a field of the Python response). -/
structure HandlerResult where
  statusCode : ℕ
  error : Option String
  coreInvoked : Bool
  results : List ScoreResult

/-- Module-level singleton `detector = AnomalyDetector()` with the default
threshold 3.5. -/
def detector : AnomalyDetector :=
  ⟨35 / 10⟩

/-- Handler `lambda_handler`, modelled from the decoded JSON body onward (the
`json.loads` step and its 400 on malformed body syntax sit upstream of every
claim).  The guard `if not readings or not isinstance(readings, list)` fires
exactly when the `readings` field is absent, is a non-list (every decoded
non-list value is either falsy or fails the isinstance check), or is an empty
list; the model matches on the field shape accordingly.  A body that is not a
mapping makes `body.get` raise, a non-mapping entry reached by the validation
loop makes `r.keys()` raise, and a non-coercible field value makes `np.array`
raise inside `detect`; each lands in the catch-all `except Exception` branch,
which responds 500. -/
noncomputable def lambda_handler (body : Json) : HandlerResult :=
  match body with
  | Json.obj _ =>
    match (body.get "readings").getD Json.null with
    | Json.arr items =>
      if items.isEmpty then
        ⟨400, some "Request must include a non-empty readings list", false, []⟩
      else
        match checkReadings 0 items with
        | Validation.missingKeys idx missing =>
          ⟨400, some (missingKeysMsg idx missing), false, []⟩
        | Validation.typeError =>
          ⟨500, some "Internal server error", false, []⟩
        | Validation.ok =>
          match items.mapM toReading with
          | some rs => ⟨200, none, true, detector.detect rs⟩
          | none => ⟨500, some "Internal server error", true, []⟩
    | _ =>
      ⟨400, some "Request must include a non-empty readings list", false, []⟩
  | _ => ⟨500, some "Internal server error", false, []⟩

/-! ## Helper lemmas -/

lemma getD_of_lt {α : Type} (l : List α) (i : ℕ) (d : α) (h : i < l.length) :
    l.getD i d = l[i] := by
  rw [List.getD_eq_getElem?_getD, List.getElem?_eq_getElem h, Option.getD_some]

lemma length_modified_z_scores (data : List ℚ) :
    (modified_z_scores data).length = data.length := by
  simp only [modified_z_scores]
  split_ifs <;> simp

lemma npSort_eq_mergeSort (l : List ℚ) :
    npSort l = l.mergeSort (fun a b => decide (a ≤ b)) := by
  have hperm : (npSort l).Perm (l.mergeSort (fun a b => decide (a ≤ b))) :=
    (List.perm_insertionSort _ l).trans (List.mergeSort_perm l _).symm
  have hs1 : List.Sorted (· ≤ ·) (npSort l) := List.sorted_insertionSort _ l
  have hs2 : List.Sorted (· ≤ ·) (l.mergeSort (fun a b => decide (a ≤ b))) := by
    have h := @List.sorted_mergeSort ℚ (fun a b => decide (a ≤ b))
      (fun a b c hab hbc => by
        simp only [decide_eq_true_eq] at *; exact le_trans hab hbc)
      (fun a b => by
        simp only [Bool.or_eq_true, decide_eq_true_eq]; exact le_total a b) l
    exact h.imp (fun hab => by simpa using hab)
  exact List.eq_of_perm_of_sorted hperm hs1 hs2

lemma specMedian_eq_np_median (l : List ℚ) : specMedian l = np_median l := by
  unfold specMedian np_median
  rw [npSort_eq_mergeSort]

lemma np_var_nonneg (l : List ℚ) : 0 ≤ np_var l := by
  unfold np_var np_mean
  apply div_nonneg _ (by positivity)
  apply List.sum_nonneg
  intro x hx
  simp only [List.mem_map] at hx
  obtain ⟨y, _, rfl⟩ := hx
  positivity

lemma np_std_eq_zero_iff (l : List ℚ) : np_std l = 0 ↔ np_var l = 0 := by
  unfold np_std
  rw [Real.sqrt_eq_zero']
  constructor
  · intro h
    have h2 : (np_var l : ℝ) = 0 :=
      le_antisymm h (by exact_mod_cast np_var_nonneg l)
    exact_mod_cast h2
  · intro h
    rw [h]
    simp

lemma modified_z_scores_of_mad_ne_zero (data : List ℚ)
    (h : np_median (data.map (fun x => |x - np_median data|)) ≠ 0) :
    modified_z_scores data = data.map (fun x =>
      ((|CONSISTENCY_CONSTANT * (x - np_median data) /
          np_median (data.map (fun y => |y - np_median data|))| : ℚ) : ℝ)) := by
  unfold modified_z_scores
  rw [if_neg h]

lemma modified_z_scores_of_zero_var (data : List ℚ)
    (hmad : np_median (data.map (fun x => |x - np_median data|)) = 0)
    (hvar : np_var data = 0) :
    modified_z_scores data = data.map (fun _ => (0 : ℝ)) := by
  unfold modified_z_scores
  rw [if_pos hmad, if_pos ((np_std_eq_zero_iff data).mpr hvar)]

lemma modified_z_scores_of_pos_var (data : List ℚ)
    (hmad : np_median (data.map (fun x => |x - np_median data|)) = 0)
    (hvar : np_var data ≠ 0) :
    modified_z_scores data = data.map (fun x : ℚ =>
      |(x : ℝ) - (np_mean data : ℝ)| / np_std data) := by
  unfold modified_z_scores
  rw [if_pos hmad, if_neg (fun h => hvar ((np_std_eq_zero_iff data).mp h))]

lemma scoreReading_fields (t : ℚ) (r : Reading) (ts vs : ℝ) :
    (scoreReading t r ts vs).sensor_id = r.sensor_id ∧
    (scoreReading t r ts vs).temperature = r.temperature ∧
    (scoreReading t r ts vs).vibration = r.vibration ∧
    (scoreReading t r ts vs).anomaly_scores.temperature = round4 ts ∧
    (scoreReading t r ts vs).anomaly_scores.vibration = round4 vs :=
  ⟨rfl, rfl, rfl, rfl, rfl⟩

lemma scoreReading_anomalous_metrics (t : ℚ) (r : Reading) (ts vs : ℝ) :
    (scoreReading t r ts vs).anomalous_metrics =
      (if ts > (t : ℝ) then ["temperature"] else []) ++
      (if vs > (t : ℝ) then ["vibration"] else []) :=
  rfl

lemma scoreReading_is_anomaly_iff (t : ℚ) (r : Reading) (ts vs : ℝ) :
    (scoreReading t r ts vs).is_anomaly = true ↔ (ts > (t : ℝ) ∨ vs > (t : ℝ)) := by
  have h : (scoreReading t r ts vs).is_anomaly =
      decide (0 < ((if ts > (t : ℝ) then ["temperature"] else []) ++
        (if vs > (t : ℝ) then ["vibration"] else [])).length) := rfl
  rw [h]
  by_cases h1 : ts > (t : ℝ) <;> by_cases h2 : vs > (t : ℝ) <;>
    simp [h1, h2]

lemma detect_eq_zipWith (d : AnomalyDetector) (B : List Reading) (h : B ≠ []) :
    d.detect B = List.zipWith (fun r s => scoreReading d.threshold r s.1 s.2) B
      ((modified_z_scores (B.map Reading.temperature)).zip
        (modified_z_scores (B.map Reading.vibration))) := by
  unfold AnomalyDetector.detect
  rw [if_neg (by simpa using h)]

lemma length_detect (d : AnomalyDetector) (B : List Reading) :
    (d.detect B).length = B.length := by
  by_cases h : B = []
  · subst h
    rfl
  · rw [detect_eq_zipWith d B h]
    simp [length_modified_z_scores]

lemma detect_get (d : AnomalyDetector) (B : List Reading) (i : ℕ)
    (hi : i < B.length) (hi2 : i < (d.detect B).length) :
    (d.detect B).get ⟨i, hi2⟩ = scoreReading d.threshold (B.get ⟨i, hi⟩)
      ((modified_z_scores (B.map Reading.temperature)).getD i 0)
      ((modified_z_scores (B.map Reading.vibration)).getD i 0) := by
  have hB : B ≠ [] := by
    intro hnil
    subst hnil
    exact absurd hi (by simp)
  have ht : i < (modified_z_scores (B.map Reading.temperature)).length := by
    rw [length_modified_z_scores, List.length_map]
    exact hi
  have hv : i < (modified_z_scores (B.map Reading.vibration)).length := by
    rw [length_modified_z_scores, List.length_map]
    exact hi
  simp only [List.get_eq_getElem]
  rw [List.getElem_of_eq (detect_eq_zipWith d B hB)]
  rw [List.getElem_zipWith, List.getElem_zip]
  rw [getD_of_lt _ _ _ ht, getD_of_lt _ _ _ hv]

/-! ## Claim theorems -/

/-- Claim C9: for every valid threshold, `detect` applied to the empty batch
returns the empty sequence (the guard `if not readings` short-circuits before
any score computation). -/
theorem detect_empty_batch (t : ℚ) (ht : 0 < t) :
    AnomalyDetector.detect ⟨t⟩ [] = [] :=
  rfl

/-- Witness for C9 at the default threshold 3.5. -/
theorem detect_empty_batch_witness :
    (0 : ℚ) < 35 / 10 ∧ AnomalyDetector.detect ⟨35 / 10⟩ [] = [] :=
  ⟨by norm_num, detect_empty_batch (35 / 10) (by norm_num)⟩

/-- Claim C5: constructing an `AnomalyDetector` with a non-positive threshold
fails immediately with the invalid-configuration error, producing no usable
instance; a positive threshold constructs successfully and is stored
unchanged, never clamped. -/
theorem init_threshold_validation (t : ℚ) :
    (t ≤ 0 → AnomalyDetector.init t =
      Except.error "Threshold must be a positive number") ∧
    (0 < t → AnomalyDetector.init t = Except.ok ⟨t⟩) := by
  constructor
  · intro h
    unfold AnomalyDetector.init
    rw [if_pos h]
  · intro h
    unfold AnomalyDetector.init
    rw [if_neg (not_le.mpr h)]

/-- Witness for C5 at thresholds -1 (rejected) and 3.5 (accepted and stored). -/
theorem init_threshold_validation_witness :
    ((-1 : ℚ) ≤ 0 ∧ AnomalyDetector.init (-1) =
      Except.error "Threshold must be a positive number") ∧
    ((0 : ℚ) < 35 / 10 ∧ AnomalyDetector.init (35 / 10) =
      Except.ok ⟨35 / 10⟩) :=
  ⟨⟨by norm_num, (init_threshold_validation (-1)).1 (by norm_num)⟩,
   ⟨by norm_num, (init_threshold_validation (35 / 10)).2 (by norm_num)⟩⟩

/-- Claim C8: `detect` returns exactly one result per input reading in input
order: the result at every index carries the sensor id, temperature and
vibration of the input reading at that index, unchanged. -/
theorem detect_preserves_order_and_echoes (d : AnomalyDetector)
    (B : List Reading) :
    (d.detect B).length = B.length ∧
    ∀ i (hi : i < B.length) (hi2 : i < (d.detect B).length),
      ((d.detect B).get ⟨i, hi2⟩).sensor_id = (B.get ⟨i, hi⟩).sensor_id ∧
      ((d.detect B).get ⟨i, hi2⟩).temperature = (B.get ⟨i, hi⟩).temperature ∧
      ((d.detect B).get ⟨i, hi2⟩).vibration = (B.get ⟨i, hi⟩).vibration := by
  refine ⟨length_detect d B, fun i hi hi2 => ?_⟩
  rw [detect_get d B i hi hi2]
  exact ⟨rfl, rfl, rfl⟩

/-- Witness for C8 on a concrete two-reading batch at index 0. -/
theorem detect_preserves_order_and_echoes_witness :
    (AnomalyDetector.detect ⟨35 / 10⟩
        [⟨"pump-01", 70, 1 / 2⟩, ⟨"pump-02", 71, 12 / 25⟩]).length = 2 ∧
    ((AnomalyDetector.detect ⟨35 / 10⟩
        [⟨"pump-01", 70, 1 / 2⟩, ⟨"pump-02", 71, 12 / 25⟩]).get
      ⟨0, by
        rw [(detect_preserves_order_and_echoes ⟨35 / 10⟩
          [⟨"pump-01", 70, 1 / 2⟩, ⟨"pump-02", 71, 12 / 25⟩]).1]
        norm_num⟩).sensor_id = "pump-01" := by
  obtain ⟨hlen, hget⟩ := detect_preserves_order_and_echoes ⟨35 / 10⟩
    [⟨"pump-01", 70, 1 / 2⟩, ⟨"pump-02", 71, 12 / 25⟩]
  refine ⟨hlen, ?_⟩
  rw [(hget 0 (by norm_num) (by rw [hlen]; norm_num)).1]
  rfl

/-- Claim C2: at every result index, `anomalous_metrics` is exactly the
subsequence of the fixed order `["temperature", "vibration"]` whose unrounded
column score strictly exceeds the threshold (equality does not trip), and
`is_anomaly` holds iff `anomalous_metrics` is non-empty. -/
theorem anomalous_metrics_exactly_strict_exceeders (t : ℚ) (ht : 0 < t)
    (B : List Reading) (i : ℕ) (hi : i < B.length)
    (hi2 : i < (AnomalyDetector.detect ⟨t⟩ B).length) :
    ((AnomalyDetector.detect ⟨t⟩ B).get ⟨i, hi2⟩).anomalous_metrics.Sublist
      ["temperature", "vibration"] ∧
    ("temperature" ∈
        ((AnomalyDetector.detect ⟨t⟩ B).get ⟨i, hi2⟩).anomalous_metrics ↔
      (modified_z_scores (B.map Reading.temperature)).getD i 0 > (t : ℝ)) ∧
    ("vibration" ∈
        ((AnomalyDetector.detect ⟨t⟩ B).get ⟨i, hi2⟩).anomalous_metrics ↔
      (modified_z_scores (B.map Reading.vibration)).getD i 0 > (t : ℝ)) ∧
    (((AnomalyDetector.detect ⟨t⟩ B).get ⟨i, hi2⟩).is_anomaly = true ↔
      ((AnomalyDetector.detect ⟨t⟩ B).get ⟨i, hi2⟩).anomalous_metrics ≠ []) := by
  rw [detect_get ⟨t⟩ B i hi hi2]
  set ts := (modified_z_scores (B.map Reading.temperature)).getD i 0 with hts
  set vs := (modified_z_scores (B.map Reading.vibration)).getD i 0 with hvs
  refine ⟨?_, ?_, ?_, ?_⟩
  · rw [scoreReading_anomalous_metrics]
    by_cases h1 : ts > (t : ℝ) <;> by_cases h2 : vs > (t : ℝ) <;>
      simp [h1, h2] <;> decide
  · rw [scoreReading_anomalous_metrics]
    by_cases h1 : ts > (t : ℝ) <;> by_cases h2 : vs > (t : ℝ) <;>
      simp [h1, h2]
  · rw [scoreReading_anomalous_metrics]
    by_cases h1 : ts > (t : ℝ) <;> by_cases h2 : vs > (t : ℝ) <;>
      simp [h1, h2]
  · rw [scoreReading_is_anomaly_iff, scoreReading_anomalous_metrics]
    by_cases h1 : ts > (t : ℝ) <;> by_cases h2 : vs > (t : ℝ) <;>
      simp [h1, h2]

/-- Witness for C2 on a concrete three-reading batch at index 0 with
threshold 1. -/
theorem anomalous_metrics_exactly_strict_exceeders_witness :
    (0 : ℚ) < 1 ∧
    (0 : ℕ) < ([⟨"a", 1, 0⟩, ⟨"b", 2, 0⟩, ⟨"c", 3, 0⟩] : List Reading).length ∧
    ∀ (hi2 : 0 < (AnomalyDetector.detect ⟨1⟩
        [⟨"a", 1, 0⟩, ⟨"b", 2, 0⟩, ⟨"c", 3, 0⟩]).length),
      ((AnomalyDetector.detect ⟨1⟩
          [⟨"a", 1, 0⟩, ⟨"b", 2, 0⟩, ⟨"c", 3, 0⟩]).get
        ⟨0, hi2⟩).anomalous_metrics.Sublist ["temperature", "vibration"] := by
  refine ⟨by norm_num, by norm_num, fun hi2 => ?_⟩
  exact (anomalous_metrics_exactly_strict_exceeders 1 (by norm_num)
    [⟨"a", 1, 0⟩, ⟨"b", 2, 0⟩, ⟨"c", 3, 0⟩] 0 (by norm_num) hi2).1

lemma countP_zipWith_anomaly_mono (t1 t2 : ℚ) (h12 : t1 < t2) :
    ∀ (rs : List Reading) (ss : List (ℝ × ℝ)),
      (List.zipWith (fun r s => scoreReading t2 r s.1 s.2) rs ss).countP
          (fun r => r.is_anomaly) ≤
        (List.zipWith (fun r s => scoreReading t1 r s.1 s.2) rs ss).countP
          (fun r => r.is_anomaly)
  | [], _ => by simp
  | _ :: _, [] => by simp
  | r :: rs, s :: ss => by
    simp only [List.zipWith_cons_cons, List.countP_cons]
    have hmono : (scoreReading t2 r s.1 s.2).is_anomaly = true →
        (scoreReading t1 r s.1 s.2).is_anomaly = true := by
      rw [scoreReading_is_anomaly_iff, scoreReading_is_anomaly_iff]
      have hc : (t1 : ℝ) < (t2 : ℝ) := by exact_mod_cast h12
      rintro (h | h)
      · exact Or.inl (lt_trans hc h)
      · exact Or.inr (lt_trans hc h)
    have hrec := countP_zipWith_anomaly_mono t1 t2 h12 rs ss
    by_cases hA : (scoreReading t2 r s.1 s.2).is_anomaly = true
    · simp only [hA, hmono hA, if_true, ite_true]
      exact Nat.add_le_add_right hrec 1
    · simp only [hA, if_false, ite_false, add_zero]
      exact le_trans hrec (Nat.le_add_right _ _)

/-- Claim C7: for a fixed batch, the per-element scores do not depend on the
threshold, so raising the threshold never increases (equivalently, lowering
it never decreases) the number of results flagged `is_anomaly`. -/
theorem anomaly_count_threshold_antitone (B : List Reading) (t1 t2 : ℚ)
    (h0 : 0 < t1) (h12 : t1 < t2) :
    anomalies_detected (AnomalyDetector.detect ⟨t2⟩ B) ≤
      anomalies_detected (AnomalyDetector.detect ⟨t1⟩ B) := by
  by_cases hB : B = []
  · subst hB
    exact le_refl _
  · unfold anomalies_detected
    rw [detect_eq_zipWith ⟨t1⟩ B hB, detect_eq_zipWith ⟨t2⟩ B hB]
    exact countP_zipWith_anomaly_mono t1 t2 h12 B _

/-- Witness for C7 on a concrete batch with thresholds 1 < 2. -/
theorem anomaly_count_threshold_antitone_witness :
    (0 : ℚ) < 1 ∧ (1 : ℚ) < 2 ∧
    anomalies_detected (AnomalyDetector.detect ⟨2⟩
        [⟨"a", 1, 0⟩, ⟨"b", 2, 0⟩, ⟨"c", 300, 0⟩]) ≤
      anomalies_detected (AnomalyDetector.detect ⟨1⟩
        [⟨"a", 1, 0⟩, ⟨"b", 2, 0⟩, ⟨"c", 300, 0⟩]) :=
  ⟨by norm_num, by norm_num,
    anomaly_count_threshold_antitone [⟨"a", 1, 0⟩, ⟨"b", 2, 0⟩, ⟨"c", 300, 0⟩]
      1 2 (by norm_num) (by norm_num)⟩

lemma modified_z_scores_getD_eq_specScore (values : List ℚ) (i : ℕ)
    (hi : i < values.length) :
    (modified_z_scores values).getD i 0 = specScore values i := by
  have hC : (0.6745 : ℚ) = CONSISTENCY_CONSTANT := by
    norm_num [CONSISTENCY_CONSTANT]
  have hmi : i < (values.map (fun x : ℚ => x)).length := by simpa using hi
  simp only [specScore, specMedian_eq_np_median]
  rw [getD_of_lt _ _ _ hi]
  by_cases hmad : np_median (values.map (fun v => |v - np_median values|)) = 0
  · rw [if_neg (by simpa using hmad)]
    by_cases hvar : np_var values = 0
    · rw [if_pos ((np_std_eq_zero_iff values).mpr hvar)]
      rw [modified_z_scores_of_zero_var values hmad hvar]
      rw [getD_of_lt _ _ _ (by simpa using hi), List.getElem_map]
    · rw [if_neg (fun h => hvar ((np_std_eq_zero_iff values).mp h))]
      rw [modified_z_scores_of_pos_var values hmad hvar]
      rw [getD_of_lt _ _ _ (by simpa using hi), List.getElem_map]
  · rw [if_pos hmad]
    rw [modified_z_scores_of_mad_ne_zero values hmad]
    rw [getD_of_lt _ _ _ (by simpa using hi), List.getElem_map]
    rw [hC]

/-- Claim C1: for every non-empty batch and each metric column independently,
the per-element scores of the detector follow the Modified Z-Score chain as
the spec words it: standard median (average of the two middle elements for
even length), median of absolute deviations, `|0.6745 * (x - med) / mad|`
when the MAD is non-zero, `|x - mean| / std` with the population standard
deviation when the MAD is zero, and all-zero scores when the standard
deviation vanishes as well. -/
theorem scores_follow_modified_z_chain (B : List Reading) (hne : B ≠ [])
    (i : ℕ) (hi : i < B.length) :
    (modified_z_scores (B.map Reading.temperature)).getD i 0 =
      specScore (B.map Reading.temperature) i ∧
    (modified_z_scores (B.map Reading.vibration)).getD i 0 =
      specScore (B.map Reading.vibration) i :=
  ⟨modified_z_scores_getD_eq_specScore _ _ (by simpa using hi),
   modified_z_scores_getD_eq_specScore _ _ (by simpa using hi)⟩

/-- Witness for C1 on a concrete three-reading batch at index 0. -/
theorem scores_follow_modified_z_chain_witness :
    ([⟨"a", 1, 5⟩, ⟨"b", 2, 5⟩, ⟨"c", 4, 5⟩] : List Reading) ≠ [] ∧
    (0 : ℕ) < ([⟨"a", 1, 5⟩, ⟨"b", 2, 5⟩, ⟨"c", 4, 5⟩] : List Reading).length ∧
    (modified_z_scores (([⟨"a", 1, 5⟩, ⟨"b", 2, 5⟩, ⟨"c", 4, 5⟩] :
        List Reading).map Reading.temperature)).getD 0 0 =
      specScore (([⟨"a", 1, 5⟩, ⟨"b", 2, 5⟩, ⟨"c", 4, 5⟩] :
        List Reading).map Reading.temperature) 0 :=
  ⟨by decide, by decide,
    (scores_follow_modified_z_chain [⟨"a", 1, 5⟩, ⟨"b", 2, 5⟩, ⟨"c", 4, 5⟩]
      (by decide) 0 (by decide)).1⟩

lemma seqOption_map_some {α β : Type} (l : List α) (f : α → Option β)
    (g : α → β) (h : ∀ a ∈ l, f a = some (g a)) :
    seqOption (l.map f) = some (l.map g) := by
  induction l with
  | nil => rfl
  | cons a l ih =>
    rw [List.map_cons, h a (List.mem_cons_self a l)]
    show (seqOption (l.map f)).map (fun lb => g a :: lb) = _
    rw [ih (fun b hb => h b (List.mem_cons_of_mem a hb))]
    rfl

lemma modified_z_scores_checked_eq (data : List ℚ) :
    modified_z_scores_checked data = some (modified_z_scores data) := by
  by_cases hmad : np_median (data.map (fun x => |x - np_median data|)) = 0
  · by_cases hvar : np_var data = 0
    · simp only [modified_z_scores_checked]
      rw [if_pos hmad, if_pos ((np_std_eq_zero_iff data).mpr hvar),
        modified_z_scores_of_zero_var data hmad hvar]
    · have hstd : np_std data ≠ 0 :=
        fun h => hvar ((np_std_eq_zero_iff data).mp h)
      simp only [modified_z_scores_checked]
      rw [if_pos hmad, if_neg hstd,
        modified_z_scores_of_pos_var data hmad hvar]
      exact seqOption_map_some data _ _ (fun a _ => by
        unfold guardedDiv
        rw [if_neg hstd])
  · simp only [modified_z_scores_checked]
    rw [if_neg hmad, modified_z_scores_of_mad_ne_zero data hmad]
    exact seqOption_map_some data _ _ (fun a _ => by
      unfold guardedDivQ
      rw [if_neg hmad]
      rfl)

/-- Claim C3: on a non-empty well-formed batch, `detect` raises nothing and
every score it computes is a well-defined finite number: the variant of the
scorer in which every division fails explicitly on a zero denominator (the
case where numpy would produce infinity or NaN) succeeds and returns exactly
the unguarded scores, because division by `mad` happens only when `mad` is
non-zero, division by `std` only when `std` is non-zero, and the remaining
case returns all zeros. -/
theorem detect_checked_total (d : AnomalyDetector) (B : List Reading)
    (hne : B ≠ []) :
    detect_checked d B = some (d.detect B) := by
  unfold detect_checked
  rw [if_neg (by simpa using hne)]
  rw [modified_z_scores_checked_eq, modified_z_scores_checked_eq]
  rw [detect_eq_zipWith d B hne]

/-- Witness for C3 on a concrete single-reading batch at the default
threshold. -/
theorem detect_checked_total_witness :
    ([⟨"pump-01", 70, 1 / 2⟩] : List Reading) ≠ [] ∧
    detect_checked ⟨35 / 10⟩ [⟨"pump-01", 70, 1 / 2⟩] =
      some (AnomalyDetector.detect ⟨35 / 10⟩ [⟨"pump-01", 70, 1 / 2⟩]) :=
  ⟨by decide, detect_checked_total ⟨35 / 10⟩ [⟨"pump-01", 70, 1 / 2⟩] (by decide)⟩

lemma pyRound_ratCast (q : ℚ) : pyRound ((q : ℝ)) = pyRoundQ q := by
  unfold pyRound pyRoundQ
  have hfr : Int.fract ((q : ℝ)) = ((Int.fract q : ℚ) : ℝ) :=
    (Rat.cast_fract q).symm
  have hhalf : (1 / 2 : ℝ) = (((1 / 2 : ℚ)) : ℝ) := by norm_num
  have hcond : (Int.fract ((q : ℝ)) = 1 / 2) ↔ (Int.fract q = 1 / 2) := by
    rw [hfr, hhalf]
    exact Rat.cast_inj
  by_cases h : Int.fract q = 1 / 2
  · rw [if_pos (hcond.mpr h), if_pos h]
    congr 1
    have h2 : ((q : ℝ)) / 2 = (((q / 2 : ℚ)) : ℝ) := by push_cast; ring
    rw [h2, Rat.round_cast]
  · rw [if_neg (fun hc => h (hcond.mp hc)), if_neg h, Rat.round_cast]

lemma round4_ratCast (q : ℚ) :
    round4 ((q : ℝ)) = (((((pyRoundQ (q * 10000) : ℤ) : ℚ) / 10000 : ℚ)) : ℝ) := by
  unfold round4
  have h : (q : ℝ) * 10000 = (((q * 10000 : ℚ)) : ℝ) := by push_cast; ring
  rw [h, pyRound_ratCast]
  push_cast
  ring

/-- Claim C4: every exposed `anomaly_scores` value is the computed score
rounded to 4 decimal places, while the `is_anomaly` decision compares the
unrounded score to the threshold; concretely, on the batch whose temperature
column is `[0, 1, -1, c, -c]` with `c = 250003/168625` and threshold
`1.00001`, the reading at index 3 has unrounded temperature score `1.000012`,
strictly above the threshold, its rounded exposed score `1.0` is below the
threshold, and the reading is still flagged anomalous. -/
theorem scores_rounded_decision_unrounded :
    (∀ (t : ℚ) (B : List Reading) (i : ℕ) (hi : i < B.length)
      (hi2 : i < (AnomalyDetector.detect ⟨t⟩ B).length),
      ((AnomalyDetector.detect ⟨t⟩ B).get ⟨i, hi2⟩).anomaly_scores.temperature =
        round4 ((modified_z_scores (B.map Reading.temperature)).getD i 0) ∧
      ((AnomalyDetector.detect ⟨t⟩ B).get ⟨i, hi2⟩).anomaly_scores.vibration =
        round4 ((modified_z_scores (B.map Reading.vibration)).getD i 0) ∧
      (((AnomalyDetector.detect ⟨t⟩ B).get ⟨i, hi2⟩).is_anomaly = true ↔
        ((modified_z_scores (B.map Reading.temperature)).getD i 0 > (t : ℝ) ∨
         (modified_z_scores (B.map Reading.vibration)).getD i 0 > (t : ℝ)))) ∧
    ((modified_z_scores (([⟨"a", 0, 1 / 2⟩, ⟨"b", 1, 1 / 2⟩, ⟨"c", -1, 1 / 2⟩,
        ⟨"spike", 250003 / 168625, 1 / 2⟩, ⟨"e", -(250003 / 168625), 1 / 2⟩] :
          List Reading).map Reading.temperature)).getD 3 0 >
        ((100001 / 100000 : ℚ) : ℝ) ∧
      round4 ((modified_z_scores (([⟨"a", 0, 1 / 2⟩, ⟨"b", 1, 1 / 2⟩,
        ⟨"c", -1, 1 / 2⟩, ⟨"spike", 250003 / 168625, 1 / 2⟩,
        ⟨"e", -(250003 / 168625), 1 / 2⟩] :
          List Reading).map Reading.temperature)).getD 3 0) ≤
        ((100001 / 100000 : ℚ) : ℝ) ∧
      ∀ (h3 : 3 < (AnomalyDetector.detect ⟨100001 / 100000⟩
          [⟨"a", 0, 1 / 2⟩, ⟨"b", 1, 1 / 2⟩, ⟨"c", -1, 1 / 2⟩,
           ⟨"spike", 250003 / 168625, 1 / 2⟩,
           ⟨"e", -(250003 / 168625), 1 / 2⟩]).length),
        ((AnomalyDetector.detect ⟨100001 / 100000⟩
          [⟨"a", 0, 1 / 2⟩, ⟨"b", 1, 1 / 2⟩, ⟨"c", -1, 1 / 2⟩,
           ⟨"spike", 250003 / 168625, 1 / 2⟩,
           ⟨"e", -(250003 / 168625), 1 / 2⟩]).get ⟨3, h3⟩).is_anomaly = true) := by
  constructor
  · intro t B i hi hi2
    rw [detect_get ⟨t⟩ B i hi hi2]
    exact ⟨rfl, rfl, scoreReading_is_anomaly_iff t _ _ _⟩
  · have hTmap : ([⟨"a", 0, 1 / 2⟩, ⟨"b", 1, 1 / 2⟩, ⟨"c", -1, 1 / 2⟩,
        ⟨"spike", 250003 / 168625, 1 / 2⟩, ⟨"e", -(250003 / 168625), 1 / 2⟩] :
          List Reading).map Reading.temperature =
        [0, 1, -1, 250003 / 168625, -(250003 / 168625)] := rfl
    have hscore : (modified_z_scores
        ([0, 1, -1, 250003 / 168625, -(250003 / 168625)] : List ℚ)).getD 3 0 =
        ((1000012 / 1000000 : ℚ) : ℝ) := by
      rw [modified_z_scores_of_mad_ne_zero _ (by
        norm_num [np_median, npSort, List.insertionSort, List.orderedInsert, List.getD, abs])]
      rw [getD_of_lt _ _ _ (by simp), List.getElem_map]
      exact congrArg (fun q : ℚ => ((q : ℝ))) (by
        norm_num [CONSISTENCY_CONSTANT, np_median, npSort, List.insertionSort,
          List.orderedInsert, List.getD, abs])
    have hvib : (modified_z_scores
        ([1 / 2, 1 / 2, 1 / 2, 1 / 2, 1 / 2] : List ℚ)).getD 3 0 = 0 := by
      rw [modified_z_scores_of_zero_var _ (by
        norm_num [np_median, npSort, List.insertionSort, List.orderedInsert, List.getD, abs]) (by norm_num [np_var, np_mean])]
      rw [getD_of_lt _ _ _ (by simp), List.getElem_map]
    refine ⟨?_, ?_, ?_⟩
    · rw [hTmap, hscore]
      exact_mod_cast (by norm_num : (100001 / 100000 : ℚ) < 1000012 / 1000000)
    · rw [hTmap, hscore, round4_ratCast]
      exact_mod_cast (by norm_num [pyRoundQ, Int.fract, round_eq] :
        ((((pyRoundQ ((1000012 / 1000000 : ℚ) * 10000) : ℤ) : ℚ) / 10000 : ℚ)) ≤
          100001 / 100000)
    · intro h3
      rw [detect_get _ _ 3 (by decide) h3]
      rw [scoreReading_is_anomaly_iff]
      refine Or.inl ?_
      rw [hTmap, hscore]
      exact_mod_cast (by norm_num : (100001 / 100000 : ℚ) < 1000012 / 1000000)

/-- Witness for C4: the universal part applied to a concrete singleton batch
at index 0 with threshold 2. -/
theorem scores_rounded_decision_unrounded_witness :
    ∀ (hi2 : 0 < (AnomalyDetector.detect ⟨2⟩ [⟨"w", 3, 4⟩]).length),
      ((AnomalyDetector.detect ⟨2⟩ [⟨"w", 3, 4⟩]).get
        ⟨0, hi2⟩).anomaly_scores.temperature =
        round4 ((modified_z_scores (([⟨"w", 3, 4⟩] : List Reading).map
          Reading.temperature)).getD 0 0) :=
  fun hi2 => (scores_rounded_decision_unrounded.1 2 [⟨"w", 3, 4⟩] 0
    (by decide) hi2).1

lemma checkReadings_cons_obj (n : ℕ) (flds : List (String × Json))
    (rest : List Json) :
    checkReadings n (Json.obj flds :: rest) =
      if (entryMissing (Json.obj flds)).isEmpty then checkReadings (n + 1) rest
      else Validation.missingKeys n (entryMissing (Json.obj flds)) :=
  rfl

lemma lambda_handler_arr (fields : List (String × Json)) (items : List Json)
    (hr : ((Json.obj fields).get "readings").getD Json.null = Json.arr items) :
    lambda_handler (Json.obj fields) =
      if items.isEmpty then
        ⟨400, some "Request must include a non-empty readings list", false, []⟩
      else
        match checkReadings 0 items with
        | Validation.missingKeys idx missing =>
          ⟨400, some (missingKeysMsg idx missing), false, []⟩
        | Validation.typeError =>
          ⟨500, some "Internal server error", false, []⟩
        | Validation.ok =>
          match items.mapM toReading with
          | some rs => ⟨200, none, true, detector.detect rs⟩
          | none => ⟨500, some "Internal server error", true, []⟩ := by
  unfold lambda_handler
  rw [hr]

lemma checkReadings_finds_first_missing :
    ∀ (items : List Json) (n : ℕ),
      (∀ r ∈ items, r.isObj = true) →
      ∀ i, i < items.length → entryMissing (items.getD i Json.null) ≠ [] →
      ∃ idx, idx < items.length ∧
        entryMissing (items.getD idx Json.null) ≠ [] ∧
        (∀ j, j < idx → entryMissing (items.getD j Json.null) = []) ∧
        checkReadings n items =
          Validation.missingKeys (n + idx) (entryMissing (items.getD idx Json.null))
  | [], _, _, i, hi, _ => absurd hi (by simp)
  | r :: rest, n, hobj, i, hi, hmiss => by
    obtain ⟨flds, rfl⟩ : ∃ flds, r = Json.obj flds := by
      have h := hobj r (List.mem_cons_self r rest)
      cases r <;> simp [Json.isObj] at h <;> exact ⟨_, rfl⟩
    by_cases h0 : entryMissing (Json.obj flds) = []
    · have hi' : i ≠ 0 := by
        intro h
        subst h
        exact hmiss (by simpa using h0)
      obtain ⟨k, rfl⟩ := Nat.exists_eq_succ_of_ne_zero hi'
      have hk : k < rest.length := by simpa using hi
      have hmiss' : entryMissing (rest.getD k Json.null) ≠ [] := by
        simpa using hmiss
      obtain ⟨idx, hlt, hne, hfirst, hrun⟩ :=
        checkReadings_finds_first_missing rest (n + 1)
          (fun x hx => hobj x (List.mem_cons_of_mem _ hx)) k hk hmiss'
      refine ⟨idx + 1, by simpa using hlt, by simpa using hne, ?_, ?_⟩
      · intro j hj
        cases j with
        | zero => simpa using h0
        | succ m => simpa using hfirst m (by omega)
      · rw [checkReadings_cons_obj, if_pos (by simpa using h0), hrun]
        have hadd : n + 1 + idx = n + (idx + 1) := by omega
        rw [hadd]
        simp
    · refine ⟨0, by simp, by simpa using h0, by omega, ?_⟩
      rw [checkReadings_cons_obj,
        if_neg (fun he => h0 (List.isEmpty_iff.mp he))]
      simp

lemma checkReadings_typeError_of_first_non_mapping :
    ∀ (pre : List Json) (bad : Json) (post : List Json) (n : ℕ),
      (∀ r ∈ pre, r.isObj = true ∧ entryMissing r = []) →
      bad.isObj = false →
      checkReadings n (pre ++ bad :: post) = Validation.typeError
  | [], bad, post, n, _, hbad => by
    cases bad <;> first | rfl | simp [Json.isObj] at hbad
  | r :: pre, bad, post, n, hpre, hbad => by
    obtain ⟨hobj, hmiss⟩ := hpre r (List.mem_cons_self r pre)
    obtain ⟨flds, rfl⟩ : ∃ flds, r = Json.obj flds := by
      cases r <;> simp [Json.isObj] at hobj <;> exact ⟨_, rfl⟩
    show checkReadings n (Json.obj flds :: (pre ++ bad :: post)) = _
    rw [checkReadings_cons_obj, if_pos (by simpa using hmiss)]
    exact checkReadings_typeError_of_first_non_mapping pre bad post (n + 1)
      (fun x hx => hpre x (List.mem_cons_of_mem _ hx)) hbad

/-- Counterexample to claim C6 as stated: the payload whose readings list is
`[123, {}]` contains an entry missing every required key (the empty mapping
at index 1, and the number 123 itself has no keys at all), yet the handler
answers 500, not 400: the loop hits the non-mapping entry at index 0 first
and `r.keys()` raises into the catch-all. -/
theorem handler_missing_keys_counterexample :
    (lambda_handler (Json.obj [("readings",
        Json.arr [Json.num 123, Json.obj []])])).statusCode = 500 ∧
    (lambda_handler (Json.obj [("readings",
        Json.arr [Json.num 123, Json.obj []])])).statusCode ≠ 400 :=
  ⟨rfl, by intro h; exact absurd (rfl.symm.trans h) (by decide)⟩

/-- Claim C6 (amended): a decoded object body whose `readings` field is
absent, not a list, or an empty list is answered 400 with the generic
readings message; and when `readings` is a list whose entries are all
mappings and some entry misses a required key, the handler answers 400 with
the message naming the first offending index and its missing keys, in sorted
order.  In both cases the core `detect` is never invoked.  (The amendment
over the claim as stated: entries must be mappings — a non-mapping entry
reached by the loop lands in the catch-all 500 instead, see C10.) -/
theorem handler_validation_client_errors (fields : List (String × Json)) :
    (∀ j, ((Json.obj fields).get "readings").getD Json.null = j →
      (j.isArr = false ∨ j = Json.arr []) →
      lambda_handler (Json.obj fields) =
        ⟨400, some "Request must include a non-empty readings list",
          false, []⟩) ∧
    (∀ items,
      ((Json.obj fields).get "readings").getD Json.null = Json.arr items →
      (∀ r ∈ items, r.isObj = true) →
      ∀ i, i < items.length → entryMissing (items.getD i Json.null) ≠ [] →
      ∃ idx, idx < items.length ∧
        entryMissing (items.getD idx Json.null) ≠ [] ∧
        (∀ j, j < idx → entryMissing (items.getD j Json.null) = []) ∧
        lambda_handler (Json.obj fields) =
          ⟨400, some (missingKeysMsg idx (entryMissing (items.getD idx Json.null))),
            false, []⟩) := by
  constructor
  · intro j hj hcase
    show lambda_handler (Json.obj fields) = _
    unfold lambda_handler
    rw [hj]
    rcases hcase with hnl | rfl
    · cases j <;> simp [Json.isArr] at hnl ⊢
    · rfl
  · intro items hr hobj i hi hmiss
    obtain ⟨idx, hlt, hne, hfirst, hrun⟩ :=
      checkReadings_finds_first_missing items 0 hobj i hi hmiss
    refine ⟨idx, hlt, hne, hfirst, ?_⟩
    have hne' : items ≠ [] := by
      intro h
      subst h
      exact absurd hi (by simp)
    rw [lambda_handler_arr fields items hr, if_neg (by simpa using hne'), hrun]
    simp

/-- Witness for the amended C6: a one-entry readings list whose single
mapping carries only `sensor_id`; the handler answers 400 naming index 0 and
the keys temperature and vibration. -/
theorem handler_validation_client_errors_witness :
    ∃ idx, idx < ([Json.obj [("sensor_id", Json.str "p-01")]] : List Json).length ∧
      entryMissing (([Json.obj [("sensor_id", Json.str "p-01")]] :
        List Json).getD idx Json.null) ≠ [] ∧
      (∀ j, j < idx → entryMissing (([Json.obj [("sensor_id", Json.str "p-01")]] :
        List Json).getD j Json.null) = []) ∧
      lambda_handler (Json.obj [("readings",
          Json.arr [Json.obj [("sensor_id", Json.str "p-01")]])]) =
        ⟨400, some (missingKeysMsg idx (entryMissing
          (([Json.obj [("sensor_id", Json.str "p-01")]] :
            List Json).getD idx Json.null))), false, []⟩ :=
  (handler_validation_client_errors [("readings",
      Json.arr [Json.obj [("sensor_id", Json.str "p-01")]])]).2
    [Json.obj [("sensor_id", Json.str "p-01")]] rfl
    (by intro r hr; simp at hr; subst hr; rfl)
    0 (by simp) (by decide)

/-- Counterexample to claim C10 as stated: the readings list `[{}, "boom"]`
contains a non-mapping entry, yet the handler answers 400, not 500: the
mapping at index 0 misses every required key and the loop reports it before
reaching the non-mapping entry. -/
theorem handler_non_mapping_counterexample :
    (lambda_handler (Json.obj [("readings",
        Json.arr [Json.obj [], Json.str "boom"])])).statusCode = 400 ∧
    (lambda_handler (Json.obj [("readings",
        Json.arr [Json.obj [], Json.str "boom"])])).statusCode ≠ 500 :=
  ⟨rfl, by intro h; exact absurd (rfl.symm.trans h) (by decide)⟩

/-- Claim C10 (amended): when the first invalid entry of a non-empty decoded
readings list is a non-mapping — every entry before it is a mapping carrying
all required keys — asking for its keys raises, the exception is caught only
by the catch-all handler, and the response is the generic 500 server error,
not a 400 client error; the core `detect` is never invoked. -/
theorem handler_non_mapping_server_error (fields : List (String × Json))
    (pre post : List Json) (bad : Json)
    (hr : ((Json.obj fields).get "readings").getD Json.null =
      Json.arr (pre ++ bad :: post))
    (hpre : ∀ r ∈ pre, r.isObj = true ∧ entryMissing r = [])
    (hbad : bad.isObj = false) :
    lambda_handler (Json.obj fields) =
      ⟨500, some "Internal server error", false, []⟩ := by
  rw [lambda_handler_arr fields (pre ++ bad :: post) hr, if_neg (by simp),
    checkReadings_typeError_of_first_non_mapping pre bad post 0 hpre hbad]

/-- Witness for the amended C10: a single-entry readings list holding the
string boom. -/
theorem handler_non_mapping_server_error_witness :
    lambda_handler (Json.obj [("readings", Json.arr [Json.str "boom"])]) =
      ⟨500, some "Internal server error", false, []⟩ :=
  handler_non_mapping_server_error [("readings", Json.arr [Json.str "boom"])]
    [] [] (Json.str "boom") rfl (by simp) rfl

end IoTPM
